import Mathlib

/-!
Verification of the Marstek Venus Modbus config flow
(`custom_components/marstek_modbus/config_flow.py`).

The development shallowly embeds the two pieces of the module that carry
logic: the connection probe `async_test_modbus_connection` and the two flow
steps `MarstekConfigFlow.async_step_user` / `MarstekOptionsFlow.async_step_init`.
Network and host behaviour (what `client.connect()`, the register read and
`socket.gethostbyname` do) is passed in as explicit data; Python exceptions
are modelled by an `Except` layer, and the transport calls the code makes are
recorded as an event trace.
-/

namespace Marstek

/-- The Python exception values that can reach the probe's handlers.
`ConnectionError` and `OSError` are OS errors; `asyncio.TimeoutError`
(a subclass of `OSError` on current Python, with empty message) is listed
separately because the read phase catches it by name; `otherExc` stands for
any other `Exception`. -/
inductive PyExc where
  | connectionError (msg : String)
  | osError (msg : String)
  | timeoutError
  | otherExc (msg : String)
deriving DecidableEq

/-- `isinstance(e, OSError)` under the exception model. -/
def PyExc.isOSErr : PyExc → Bool
  | .connectionError _ => true
  | .osError _ => true
  | .timeoutError => true
  | .otherExc _ => false

/-- `str(err)` under the exception model. -/
def PyExc.excMsg : PyExc → String
  | .connectionError m => m
  | .osError m => m
  | .timeoutError => ""
  | .otherExc m => m

/-- Transport-level calls observable during a probe or flow step. -/
inductive Event where
  | resolveCall
  | probeCall
  | connectCall
  | readCall
  | closeCall
deriving DecidableEq

/-- The pymodbus response object as the probe inspects it:
whether it has an `isError` attribute, what `isError()` returns, and the
value of `getattr(result, 'exception_code', None)`. -/
structure ModbusResult where
  hasIsErrorAttr : Bool
  isErrorResult : Bool
  exception_code : Option Int
deriving DecidableEq

/-- The network behaviour one probe call observes: the outcome of
`client.connect()` (a `Bool`, or a raised exception) and the outcome of the
awaited register read (`None`, a response object, or a raised exception —
`timeoutError` for `asyncio.wait_for` expiry). `closeRaises` records whether
`client.close()` raises during cleanup. -/
structure NetEnv where
  connectResult : Except PyExc Bool
  readResult : Except PyExc (Option ModbusResult)
  closeRaises : Bool

/-- Character-list version of `String.startsWith`. -/
def beginsWith : List Char → List Char → Bool
  | [], _ => true
  | _ :: _, [] => false
  | a :: pa, b :: pb => a == b && beginsWith pa pb

/-- `pat` occurs as a contiguous substring of `s`. -/
def hasSub (pat : List Char) : List Char → Bool
  | [] => beginsWith pat []
  | c :: rest => beginsWith pat (c :: rest) || hasSub pat rest

/-- Python `pat in msg.lower()` for an already-lowercase pattern `pat`. -/
def msgHas (msg pat : String) : Bool :=
  hasSub pat.toList (msg.toList.map Char.toLower)

/-- Lines 304-314: the `except OSError` handler's message-based
classification of a connect-phase OS error (`err_msg = str(err).lower()`). -/
def classifyConnectError (err_msg : String) : String :=
  if msgHas err_msg "permission denied" then "permission_denied"
  else if msgHas err_msg "connection refused" then "connection_refused"
  else if msgHas err_msg "timed out" || msgHas err_msg "timeout" then "timed_out"
  else "cannot_connect"

/-- Lines 268-270: `if not client.connect(): raise ConnectionError("Unable to connect")`;
an exception raised by `connect()` itself propagates unchanged. -/
def connectPhase (c : Except PyExc Bool) : Except PyExc Unit :=
  match c with
  | .error e => .error e
  | .ok false => .error (.connectionError "Unable to connect")
  | .ok true => .ok ()

/-- Lines 273-302: the inner try block around the register read.
`None` result, a non-{1,2,3,4} exception code, a missing exception code,
a read timeout and any other exception all yield `"unit_id_no_response"`;
exception codes 1-4 and a well-formed data response yield `none` (success). -/
def readPhase (res : Except PyExc (Option ModbusResult)) : Option String :=
  match res with
  | .error .timeoutError => some "unit_id_no_response"
  | .error _ => some "unit_id_no_response"
  | .ok none => some "unit_id_no_response"
  | .ok (some r) =>
    if r.hasIsErrorAttr && r.isErrorResult then
      match r.exception_code with
      | some c =>
        if c = 1 ∨ c = 2 ∨ c = 3 ∨ c = 4 then none else some "unit_id_no_response"
      | none => some "unit_id_no_response"
    else none

/-- Lines 254-323: the whole probe. `host`, `port` and `unit_id` are handed
to the `ModbusTcpClient` but never range-checked by the probe itself. The
first component is the Python return value (`none` = success, `some key` =
error key) under the `Except` layer for a propagating exception; the second
is the trace of transport calls, with `client.close()` appended by the
`finally` block on every path. -/
def async_test_modbus_connection (host : String) (port : Int) (unit_id : Int)
    (env : NetEnv) : Except PyExc (Option String) × List Event :=
  match connectPhase env.connectResult with
  | .error e =>
    ((if e.isOSErr then Except.ok (some (classifyConnectError e.excMsg))
      else Except.ok (some "cannot_connect")),
     [Event.connectCall, Event.closeCall])
  | .ok _ =>
    (Except.ok (readPhase env.readResult),
     [Event.connectCall, Event.readCall, Event.closeCall])

/-- The data stored in a configuration entry created by `async_step_user`
(line 94-99): host, port, unit id and device version. -/
structure ConfigEntryData where
  host : String
  port : Int
  unit_id : Int
  device_version : String
deriving DecidableEq

/-- The value a config-flow step hands back to the host framework:
`async_show_form` with `errors["base"]`, `async_abort`, or
`async_create_entry`. -/
inductive FlowResult where
  | showForm (errorBase : Option String)
  | abort (reason : String)
  | createEntry (data : ConfigEntryData)
deriving DecidableEq

/-- The submitted user form: `CONF_HOST` is required, the rest fall back to
defaults from `const.py` when absent. -/
structure UserInput where
  host : String
  port : Option Int
  unit_id : Option Int
  device_version : Option String
deriving DecidableEq

/-- Constants imported from `const.py` (not part of this file's source):
the claims do not depend on their values, so they stay abstract. -/
structure FlowConsts where
  DEFAULT_PORT : Int
  DEFAULT_UNIT_ID : Int
  defaultVersion : String
deriving DecidableEq

/-- Behaviour of `socket.gethostbyname(host)`: success, or a raised
`socket.gaierror` / `TypeError`. -/
inductive ResolveResult where
  | resolved
  | resolveError
deriving DecidableEq

/-- Lines 48-100: the submit path of `MarstekConfigFlow.async_step_user`.
Port and unit-id bounds are checked first; then the host is resolved; then
already-registered entries are scanned for a matching `(host, unit_id)`
pair; only then is the probe invoked. The trace records the resolution
attempt, the probe invocation and the probe's own transport calls. -/
def async_step_user (consts : FlowConsts) (entries : List ConfigEntryData)
    (resolve : ResolveResult) (env : NetEnv) (input : UserInput) :
    Except PyExc FlowResult × List Event :=
  let host := input.host
  let port := input.port.getD consts.DEFAULT_PORT
  let device_version := input.device_version.getD consts.defaultVersion
  let unit_id := input.unit_id.getD consts.DEFAULT_UNIT_ID
  if ¬ (1 ≤ port ∧ port ≤ 65535) then
    (Except.ok (FlowResult.showForm (some "invalid_port")), [])
  else if ¬ (1 ≤ unit_id ∧ unit_id ≤ 255) then
    (Except.ok (FlowResult.showForm (some "invalid_unit_id")), [])
  else
    match resolve with
    | ResolveResult.resolveError =>
      (Except.ok (FlowResult.showForm (some "invalid_host")), [Event.resolveCall])
    | ResolveResult.resolved =>
      match entries.find? (fun e => e.host == host && e.unit_id == unit_id) with
      | some _ => (Except.ok (FlowResult.abort "already_configured"), [Event.resolveCall])
      | none =>
        let probeRes := async_test_modbus_connection host port unit_id env
        let evs := Event.resolveCall :: Event.probeCall :: probeRes.2
        match probeRes.1 with
        | Except.error e => (Except.error e, evs)
        | Except.ok none =>
          (Except.ok (FlowResult.createEntry ⟨host, port, unit_id, device_version⟩), evs)
        | Except.ok (some k) => (Except.ok (FlowResult.showForm (some k)), evs)

/-- The option-layer values of a configuration entry: each of the five keys
of the options form, present or absent (a Python dict with these keys). -/
structure OptValues where
  unit_id : Option Int
  high : Option Int
  medium : Option Int
  low : Option Int
  very_low : Option Int
deriving DecidableEq

/-- The parts of a config entry the options flow reads: `config.options`
and `config.data` (line 205-214). -/
structure OptionsEntry where
  options : OptValues
  data : OptValues
deriving DecidableEq

/-- `DEFAULT_SCAN_INTERVALS` from `const.py`: kept abstract, the claims do
not depend on the concrete values. -/
structure ScanDefaults where
  high : Int
  medium : Int
  low : Int
  very_low : Int
deriving DecidableEq

/-- The user's submission to the options form, before schema validation:
each field present or absent. -/
structure OptSubmission where
  unit_id : Option Int
  high : Option Int
  medium : Option Int
  low : Option Int
  very_low : Option Int
deriving DecidableEq

/-- The submission after the host framework has applied the voluptuous
schema of lines 235-243: every key present. -/
structure ValidatedOptions where
  unit_id : Int
  high : Int
  medium : Int
  low : Int
  very_low : Int
deriving DecidableEq

/-- `vol.Clamp(min=lo, max=hi)` on an integer. -/
def clampTo (lo hi v : Int) : Int := max lo (min hi v)

/-- Line 209 / 214: `config.options.get(key, config.data.get(key, default))`. -/
def optionDefault (opt dat : Option Int) (dflt : Int) : Int :=
  opt.getD (dat.getD dflt)

/-- The voluptuous schema of lines 235-243 applied to a submission: a
present value is coerced and clamped ([1,255] for `unit_id`, [1,3600] for
the four rates); an absent key receives the marker default, which is the
options-then-data-then-constant fallback computed at lines 208-214
(voluptuous inserts marker defaults without passing them through the
value validators). -/
def applyOptionsSchema (cfg : OptionsEntry) (DSI : ScanDefaults)
    (DUI : Int) (s : OptSubmission) : ValidatedOptions :=
  { unit_id :=
      match s.unit_id with
      | some v => clampTo 1 255 v
      | none => optionDefault cfg.options.unit_id cfg.data.unit_id DUI
    high :=
      match s.high with
      | some v => clampTo 1 3600 v
      | none => optionDefault cfg.options.high cfg.data.high DSI.high
    medium :=
      match s.medium with
      | some v => clampTo 1 3600 v
      | none => optionDefault cfg.options.medium cfg.data.medium DSI.medium
    low :=
      match s.low with
      | some v => clampTo 1 3600 v
      | none => optionDefault cfg.options.low cfg.data.low DSI.low
    very_low :=
      match s.very_low with
      | some v => clampTo 1 3600 v
      | none => optionDefault cfg.options.very_low cfg.data.very_low DSI.very_low }

/-- The validated submission as the stored options dict
(`async_create_entry(data=user_input)`, line 232). -/
def toOptValues (v : ValidatedOptions) : OptValues :=
  ⟨some v.unit_id, some v.high, some v.medium, some v.low, some v.very_low⟩

/-- The side effects of one options submission on the external coordinator:
the `_update_scan_intervals(user_input)` notification (fired whenever the
coordinator exists) and the conditional `client.unit_id` update of
lines 226-229 (fired only when the new unit id differs). -/
structure ReconcileEffects where
  scanUpdate : Option ValidatedOptions
  unitUpdate : Option Int
deriving DecidableEq

/-- Lines 192-232, submit path of `MarstekOptionsFlow.async_step_init`:
the schema-validated submission is stored as the new options dict, the
coordinator (modelled by its `client.unit_id`, or `none` when absent from
`hass.data`) is notified of the new scan intervals and, when it changed,
of the new unit id. Returns the stored options, the notifications, and the
coordinator's `client.unit_id` afterwards. -/
def async_step_init (cfg : OptionsEntry) (DSI : ScanDefaults) (DUI : Int)
    (coord : Option Int) (user_input : OptSubmission) :
    OptValues × ReconcileEffects × Option Int :=
  let validated := applyOptionsSchema cfg DSI DUI user_input
  let effects : ReconcileEffects × Option Int :=
    match coord with
    | none => (⟨none, none⟩, none)
    | some cu =>
      if validated.unit_id ≠ cu then
        (⟨some validated, some validated.unit_id⟩, some validated.unit_id)
      else
        (⟨some validated, none⟩, some cu)
  (toOptValues validated, effects)

/-- The options dict stored by one submission. -/
def storedOptions (cfg : OptionsEntry) (DSI : ScanDefaults) (DUI : Int)
    (coord : Option Int) (s : OptSubmission) : OptValues :=
  (async_step_init cfg DSI DUI coord s).1

end Marstek

namespace Marstek

/-- Claim C1: when the connect succeeds and the read returns a
protocol-level error response, an exception code in {1,2,3,4} makes the
probe return success (`None`), any other exception code — including an
absent `exception_code` attribute — makes it return `unit_id_no_response`. -/
theorem probe_exception_code_classification (host : String) (port unit_id : Int)
    (env : NetEnv) (r : ModbusResult)
    (hc : env.connectResult = Except.ok true)
    (hr : env.readResult = Except.ok (some r))
    (ha : r.hasIsErrorAttr = true) (he : r.isErrorResult = true) :
    ((r.exception_code = some 1 ∨ r.exception_code = some 2 ∨
      r.exception_code = some 3 ∨ r.exception_code = some 4) →
      (async_test_modbus_connection host port unit_id env).1 = Except.ok none) ∧
    (∀ c : Int, r.exception_code = some c → ¬ (c = 1 ∨ c = 2 ∨ c = 3 ∨ c = 4) →
      (async_test_modbus_connection host port unit_id env).1
        = Except.ok (some "unit_id_no_response")) ∧
    (r.exception_code = none →
      (async_test_modbus_connection host port unit_id env).1
        = Except.ok (some "unit_id_no_response")) := by
  unfold async_test_modbus_connection connectPhase readPhase
  rw [hc, hr]
  refine ⟨?_, ?_, ?_⟩
  · rintro (h | h | h | h) <;> simp [h, ha, he]
  · intro c hcode hne
    simp [hcode, ha, he, hne]
  · intro hnone
    simp [hnone, ha, he]

/-- Witness for C1 at a concrete environment: exception code 2 yields
success, exception code 5 yields `unit_id_no_response`. -/
theorem probe_exception_code_classification_witness :
    (async_test_modbus_connection "192.0.2.1" 502 1
      ⟨Except.ok true, Except.ok (some ⟨true, true, some 2⟩), false⟩).1
      = Except.ok none ∧
    (async_test_modbus_connection "192.0.2.1" 502 1
      ⟨Except.ok true, Except.ok (some ⟨true, true, some 5⟩), false⟩).1
      = Except.ok (some "unit_id_no_response") :=
  ⟨(probe_exception_code_classification "192.0.2.1" 502 1
      ⟨Except.ok true, Except.ok (some ⟨true, true, some 2⟩), false⟩
      ⟨true, true, some 2⟩ rfl rfl rfl rfl).1 (Or.inr (Or.inl rfl)),
   (probe_exception_code_classification "192.0.2.1" 502 1
      ⟨Except.ok true, Except.ok (some ⟨true, true, some 5⟩), false⟩
      ⟨true, true, some 5⟩ rfl rfl rfl rfl).2.1 5 rfl (by decide)⟩

/-- Claim C2: the probe resolves every environment — every connect failure,
read timeout, protocol error and unexpected exception — to an ordinary
return value (`Except.ok`), never propagating an exception; in particular
any exception raised during the read phase (timeout or not) resolves to
`unit_id_no_response`. -/
theorem probe_never_raises :
    (∀ (host : String) (port unit_id : Int) (env : NetEnv),
      ∃ v, (async_test_modbus_connection host port unit_id env).1 = Except.ok v) ∧
    (∀ (host : String) (port unit_id : Int) (env : NetEnv) (e : PyExc),
      env.connectResult = Except.ok true → env.readResult = Except.error e →
      (async_test_modbus_connection host port unit_id env).1
        = Except.ok (some "unit_id_no_response")) := by
  constructor
  · intro host port unit_id env
    unfold async_test_modbus_connection
    rcases hc : connectPhase env.connectResult with e | u
    · by_cases hos : e.isOSErr <;> simp [hos]
    · exact ⟨_, rfl⟩
  · intro host port unit_id env e hc hr
    unfold async_test_modbus_connection connectPhase readPhase
    rw [hc, hr]
    cases e <;> rfl

/-- Witness for C2: an unexpected (non-timeout) exception raised during the
read phase resolves to `unit_id_no_response`. -/
theorem probe_never_raises_witness :
    (async_test_modbus_connection "192.0.2.1" 502 1
      ⟨Except.ok true, Except.error (PyExc.otherExc "boom"), false⟩).1
      = Except.ok (some "unit_id_no_response") :=
  probe_never_raises.2 "192.0.2.1" 502 1
    ⟨Except.ok true, Except.error (PyExc.otherExc "boom"), false⟩
    (PyExc.otherExc "boom") rfl rfl

/-- Claim C4: on every execution path of the probe the connection-close
call appears exactly once in the trace. -/
theorem probe_close_called_once (host : String) (port unit_id : Int) (env : NetEnv) :
    (async_test_modbus_connection host port unit_id env).2.count Event.closeCall = 1 := by
  unfold async_test_modbus_connection
  rcases connectPhase env.connectResult with e | u <;> simp

/-- Claim C5: classification of connect-phase OS errors by their message:
permission denied, then connection refused, then timeout, then the
catch-all `cannot_connect`; a `connect()` that merely returns `False`
also maps to `cannot_connect`. -/
theorem probe_connect_error_classification (host : String) (port unit_id : Int)
    (env : NetEnv) (msg : String)
    (h : env.connectResult = Except.error (PyExc.osError msg)) :
    ((msgHas msg "permission denied" = true →
      (async_test_modbus_connection host port unit_id env).1
        = Except.ok (some "permission_denied")) ∧
     (msgHas msg "permission denied" = false →
      msgHas msg "connection refused" = true →
      (async_test_modbus_connection host port unit_id env).1
        = Except.ok (some "connection_refused")) ∧
     (msgHas msg "permission denied" = false →
      msgHas msg "connection refused" = false →
      (msgHas msg "timed out" = true ∨ msgHas msg "timeout" = true) →
      (async_test_modbus_connection host port unit_id env).1
        = Except.ok (some "timed_out")) ∧
     (msgHas msg "permission denied" = false →
      msgHas msg "connection refused" = false →
      msgHas msg "timed out" = false → msgHas msg "timeout" = false →
      (async_test_modbus_connection host port unit_id env).1
        = Except.ok (some "cannot_connect"))) ∧
    (∀ env2 : NetEnv, env2.connectResult = Except.ok false →
      (async_test_modbus_connection host port unit_id env2).1
        = Except.ok (some "cannot_connect")) := by
  constructor
  · unfold async_test_modbus_connection connectPhase
    rw [h]
    refine ⟨?_, ?_, ?_, ?_⟩
    · intro h1
      simp [PyExc.isOSErr, PyExc.excMsg, classifyConnectError, h1]
    · intro h1 h2
      simp [PyExc.isOSErr, PyExc.excMsg, classifyConnectError, h1, h2]
    · rintro h1 h2 (h3 | h3) <;>
        simp [PyExc.isOSErr, PyExc.excMsg, classifyConnectError, h1, h2, h3]
    · intro h1 h2 h3 h4
      simp [PyExc.isOSErr, PyExc.excMsg, classifyConnectError, h1, h2, h3, h4]
  · intro env2 h2
    unfold async_test_modbus_connection connectPhase
    rw [h2]
    rfl

/-- Witness for C5 at concrete messages: a timeout message classifies as
`timed_out`, a refusal as `connection_refused`, a permission failure as
`permission_denied`, an unrelated message as `cannot_connect`, and a
`connect()` returning `False` as `cannot_connect`. -/
theorem probe_connect_error_classification_witness :
    (async_test_modbus_connection "192.0.2.1" 502 1
      ⟨Except.error (PyExc.osError "Connection timed out"), Except.ok none, false⟩).1
      = Except.ok (some "timed_out") ∧
    (async_test_modbus_connection "192.0.2.1" 502 1
      ⟨Except.error (PyExc.osError "Connection refused"), Except.ok none, false⟩).1
      = Except.ok (some "connection_refused") ∧
    (async_test_modbus_connection "192.0.2.1" 502 1
      ⟨Except.error (PyExc.osError "Permission denied"), Except.ok none, false⟩).1
      = Except.ok (some "permission_denied") ∧
    (async_test_modbus_connection "192.0.2.1" 502 1
      ⟨Except.error (PyExc.osError "No route to host"), Except.ok none, false⟩).1
      = Except.ok (some "cannot_connect") ∧
    (async_test_modbus_connection "192.0.2.1" 502 1
      ⟨Except.ok false, Except.ok none, false⟩).1
      = Except.ok (some "cannot_connect") :=
  ⟨((probe_connect_error_classification "192.0.2.1" 502 1
      ⟨Except.error (PyExc.osError "Connection timed out"), Except.ok none, false⟩
      "Connection timed out" rfl).1).2.2.1 rfl rfl (Or.inl rfl),
   ((probe_connect_error_classification "192.0.2.1" 502 1
      ⟨Except.error (PyExc.osError "Connection refused"), Except.ok none, false⟩
      "Connection refused" rfl).1).2.1 rfl rfl,
   ((probe_connect_error_classification "192.0.2.1" 502 1
      ⟨Except.error (PyExc.osError "Permission denied"), Except.ok none, false⟩
      "Permission denied" rfl).1).1 rfl,
   ((probe_connect_error_classification "192.0.2.1" 502 1
      ⟨Except.error (PyExc.osError "No route to host"), Except.ok none, false⟩
      "No route to host" rfl).1).2.2.2 rfl rfl rfl rfl,
   (probe_connect_error_classification "192.0.2.1" 502 1
      ⟨Except.error (PyExc.osError "No route to host"), Except.ok none, false⟩
      "No route to host" rfl).2
      ⟨Except.ok false, Except.ok none, false⟩ rfl⟩

/-- Claim C10: a read that completes without raising but yields no result
object at all (`result is None`) makes the probe return
`unit_id_no_response`. -/
theorem probe_none_result (host : String) (port unit_id : Int) (env : NetEnv)
    (hc : env.connectResult = Except.ok true)
    (hr : env.readResult = Except.ok none) :
    (async_test_modbus_connection host port unit_id env).1
      = Except.ok (some "unit_id_no_response") := by
  unfold async_test_modbus_connection connectPhase readPhase
  rw [hc, hr]

/-- Witness for C10 at a concrete environment. -/
theorem probe_none_result_witness :
    (async_test_modbus_connection "192.0.2.1" 502 1
      ⟨Except.ok true, Except.ok none, false⟩).1
      = Except.ok (some "unit_id_no_response") :=
  probe_none_result "192.0.2.1" 502 1 ⟨Except.ok true, Except.ok none, false⟩ rfl rfl

/-- Counterexample to claim C3: with port 0 and unit id 300 — both out of
range — the probe does not return any parameter error; it opens the socket
(the connect call is in the trace) and, when the endpoint responds with
data, returns success. The probe performs no bounds check. -/
theorem probe_no_bounds_check_counterexample :
    async_test_modbus_connection "192.0.2.1" 0 300
      ⟨Except.ok true, Except.ok (some ⟨true, false, none⟩), false⟩
      = (Except.ok none, [Event.connectCall, Event.readCall, Event.closeCall]) := rfl

/-- Amended C3: the bounds [1,65535] for the port and [1,255] for the unit
id are enforced by the setup flow `async_step_user` before any host
resolution, socket or probe — an out-of-range port yields the
`invalid_port` form error and an out-of-range unit id (with a valid port)
yields `invalid_unit_id`, each with an empty transport trace — while the
probe itself performs no bounds check. -/
theorem flow_bounds_check (consts : FlowConsts) (entries : List ConfigEntryData)
    (resolve : ResolveResult) (env : NetEnv) (input : UserInput) (p u : Int)
    (hp : input.port = some p) (hu : input.unit_id = some u) :
    (¬ (1 ≤ p ∧ p ≤ 65535) →
      async_step_user consts entries resolve env input
        = (Except.ok (FlowResult.showForm (some "invalid_port")), [])) ∧
    ((1 ≤ p ∧ p ≤ 65535) → ¬ (1 ≤ u ∧ u ≤ 255) →
      async_step_user consts entries resolve env input
        = (Except.ok (FlowResult.showForm (some "invalid_unit_id")), [])) := by
  constructor
  · intro hout
    unfold async_step_user
    rw [hp]
    simp only [Option.getD_some]
    rw [if_pos hout]
  · intro hin hout
    unfold async_step_user
    rw [hp, hu]
    simp only [Option.getD_some]
    rw [if_neg (by simpa using hin), if_pos hout]

/-- Witness for the amended C3: port 70000 is rejected as `invalid_port`,
unit id 0 (with port 502) as `invalid_unit_id`, both with no transport
activity. -/
theorem flow_bounds_check_witness :
    async_step_user ⟨502, 1, "v1"⟩ [] ResolveResult.resolved
      ⟨Except.ok true, Except.ok none, false⟩
      ⟨"192.0.2.1", some 70000, some 1, some "v1"⟩
      = (Except.ok (FlowResult.showForm (some "invalid_port")), []) ∧
    async_step_user ⟨502, 1, "v1"⟩ [] ResolveResult.resolved
      ⟨Except.ok true, Except.ok none, false⟩
      ⟨"192.0.2.1", some 502, some 0, some "v1"⟩
      = (Except.ok (FlowResult.showForm (some "invalid_unit_id")), []) :=
  ⟨(flow_bounds_check ⟨502, 1, "v1"⟩ [] ResolveResult.resolved
      ⟨Except.ok true, Except.ok none, false⟩
      ⟨"192.0.2.1", some 70000, some 1, some "v1"⟩ 70000 1 rfl rfl).1 (by decide),
   (flow_bounds_check ⟨502, 1, "v1"⟩ [] ResolveResult.resolved
      ⟨Except.ok true, Except.ok none, false⟩
      ⟨"192.0.2.1", some 502, some 0, some "v1"⟩ 502 0 rfl rfl).2
      (by decide) (by decide)⟩

/-- Claim C6: when host resolution fails (and the submitted port and unit
id are in range, so the flow reaches the resolution step), the flow yields
the `invalid_host` form error; its trace holds only the resolution attempt —
no socket to the target is opened and no probe is invoked. -/
theorem flow_invalid_host (consts : FlowConsts) (entries : List ConfigEntryData)
    (env : NetEnv) (input : UserInput) (p u : Int)
    (hp : input.port = some p) (hu : input.unit_id = some u)
    (hpr : 1 ≤ p ∧ p ≤ 65535) (hur : 1 ≤ u ∧ u ≤ 255) :
    async_step_user consts entries ResolveResult.resolveError env input
      = (Except.ok (FlowResult.showForm (some "invalid_host")), [Event.resolveCall]) ∧
    (async_step_user consts entries ResolveResult.resolveError env input).2.count
      Event.connectCall = 0 ∧
    (async_step_user consts entries ResolveResult.resolveError env input).2.count
      Event.probeCall = 0 := by
  have hmain : async_step_user consts entries ResolveResult.resolveError env input
      = (Except.ok (FlowResult.showForm (some "invalid_host")), [Event.resolveCall]) := by
    unfold async_step_user
    rw [hp, hu]
    simp only [Option.getD_some]
    rw [if_neg (by simpa using hpr), if_neg (by simpa using hur)]
  refine ⟨hmain, ?_, ?_⟩ <;> rw [hmain] <;> decide

/-- Witness for C6 at a concrete input. -/
theorem flow_invalid_host_witness :
    async_step_user ⟨502, 1, "v1"⟩ [] ResolveResult.resolveError
      ⟨Except.ok true, Except.ok none, false⟩
      ⟨"not-a-host", some 502, some 1, some "v1"⟩
      = (Except.ok (FlowResult.showForm (some "invalid_host")), [Event.resolveCall]) :=
  (flow_invalid_host ⟨502, 1, "v1"⟩ [] ⟨Except.ok true, Except.ok none, false⟩
    ⟨"not-a-host", some 502, some 1, some "v1"⟩ 502 1 rfl rfl
    (by decide) (by decide)).1

/-- Claim C7: a submission whose `(host, unit_id)` pair matches some
already-registered entry makes the flow abort with `already_configured`
without invoking the probe; the entry's port plays no role, so the match
fires even when the ports differ. -/
theorem flow_duplicate_abort (consts : FlowConsts) (entries : List ConfigEntryData)
    (env : NetEnv) (input : UserInput) (p u : Int) (e : ConfigEntryData)
    (hp : input.port = some p) (hu : input.unit_id = some u)
    (hpr : 1 ≤ p ∧ p ≤ 65535) (hur : 1 ≤ u ∧ u ≤ 255)
    (hmem : e ∈ entries) (hh : e.host = input.host) (hid : e.unit_id = u) :
    async_step_user consts entries ResolveResult.resolved env input
      = (Except.ok (FlowResult.abort "already_configured"), [Event.resolveCall]) ∧
    (async_step_user consts entries ResolveResult.resolved env input).2.count
      Event.probeCall = 0 ∧
    (async_step_user consts entries ResolveResult.resolved env input).2.count
      Event.connectCall = 0 := by
  have hmain : async_step_user consts entries ResolveResult.resolved env input
      = (Except.ok (FlowResult.abort "already_configured"), [Event.resolveCall]) := by
    unfold async_step_user
    rw [hp, hu]
    simp only [Option.getD_some]
    rw [if_neg (by simpa using hpr), if_neg (by simpa using hur)]
    rcases hf : entries.find? (fun x => x.host == input.host && x.unit_id == u) with _ | x
    · rw [List.find?_eq_none] at hf
      exact absurd (by simp [hh, hid]) (hf e hmem)
    · rw [hf]
  refine ⟨hmain, ?_, ?_⟩ <;> rw [hmain] <;> decide

/-- Witness for C7: a registered entry at port 502 blocks a new submission
for the same host and unit id even at a different port 1502. -/
theorem flow_duplicate_abort_witness :
    async_step_user ⟨502, 1, "v1"⟩ [⟨"10.0.0.2", 502, 3, "v1"⟩]
      ResolveResult.resolved ⟨Except.ok true, Except.ok none, false⟩
      ⟨"10.0.0.2", some 1502, some 3, some "v1"⟩
      = (Except.ok (FlowResult.abort "already_configured"), [Event.resolveCall]) :=
  (flow_duplicate_abort ⟨502, 1, "v1"⟩ [⟨"10.0.0.2", 502, 3, "v1"⟩]
    ⟨Except.ok true, Except.ok none, false⟩
    ⟨"10.0.0.2", some 1502, some 3, some "v1"⟩ 1502 3 ⟨"10.0.0.2", 502, 3, "v1"⟩
    rfl rfl (by decide) (by decide) (List.mem_singleton.mpr rfl) rfl rfl).1

theorem async_step_init_fst (cfg : OptionsEntry) (DSI : ScanDefaults) (DUI : Int)
    (coord : Option Int) (s : OptSubmission) :
    (async_step_init cfg DSI DUI coord s).1
      = toOptValues (applyOptionsSchema cfg DSI DUI s) := rfl

theorem async_step_init_scan (cfg : OptionsEntry) (DSI : ScanDefaults) (DUI : Int)
    (coord : Option Int) (s : OptSubmission) :
    (async_step_init cfg DSI DUI coord s).2.1.scanUpdate
      = coord.map (fun _ => applyOptionsSchema cfg DSI DUI s) := by
  unfold async_step_init
  cases coord with
  | none => rfl
  | some cu =>
    by_cases h : (applyOptionsSchema cfg DSI DUI s).unit_id = cu <;> simp [h]

theorem async_step_init_coord (cfg : OptionsEntry) (DSI : ScanDefaults) (DUI : Int)
    (coord : Option Int) (s : OptSubmission) :
    (async_step_init cfg DSI DUI coord s).2.2
      = coord.map (fun _ => (applyOptionsSchema cfg DSI DUI s).unit_id) := by
  unfold async_step_init
  cases coord with
  | none => rfl
  | some cu =>
    by_cases h : (applyOptionsSchema cfg DSI DUI s).unit_id = cu <;> simp [h]

/-- Re-validating the same submission against the profile stored by a first
validation changes nothing: present fields clamp to the same values and
absent fields read back the values the first validation stored. -/
theorem applyOptionsSchema_stable (cfg : OptionsEntry) (d : OptValues)
    (DSI : ScanDefaults) (DUI : Int) (s : OptSubmission) :
    applyOptionsSchema ⟨toOptValues (applyOptionsSchema cfg DSI DUI s), d⟩ DSI DUI s
      = applyOptionsSchema cfg DSI DUI s := by
  obtain ⟨su, sh, sm, sl, sv⟩ := s
  unfold applyOptionsSchema toOptValues optionDefault
  cases su <;> cases sh <;> cases sm <;> cases sl <;> cases sv <;> simp

/-- Claim C8: each of the four rate fields and the unit id that is present
in the submission is stored clamped to its range ([1,3600] for rates,
[1,255] for the unit id) — in particular a submitted rate 5000 is stored as
3600 and a submitted unit id 0 as 1 — and each absent field is stored as
the existing profile's value (options layer, then entry data, then the
system default). -/
theorem options_clamp_and_defaults (cfg : OptionsEntry) (DSI : ScanDefaults)
    (DUI : Int) (coord : Option Int) (s : OptSubmission) :
    (∀ v, s.high = some v →
      (storedOptions cfg DSI DUI coord s).high = some (clampTo 1 3600 v)) ∧
    (∀ v, s.medium = some v →
      (storedOptions cfg DSI DUI coord s).medium = some (clampTo 1 3600 v)) ∧
    (∀ v, s.low = some v →
      (storedOptions cfg DSI DUI coord s).low = some (clampTo 1 3600 v)) ∧
    (∀ v, s.very_low = some v →
      (storedOptions cfg DSI DUI coord s).very_low = some (clampTo 1 3600 v)) ∧
    (∀ v, s.unit_id = some v →
      (storedOptions cfg DSI DUI coord s).unit_id = some (clampTo 1 255 v)) ∧
    (s.high = some 5000 → (storedOptions cfg DSI DUI coord s).high = some 3600) ∧
    (s.unit_id = some 0 → (storedOptions cfg DSI DUI coord s).unit_id = some 1) ∧
    (s.high = none → (storedOptions cfg DSI DUI coord s).high
      = some (optionDefault cfg.options.high cfg.data.high DSI.high)) ∧
    (s.medium = none → (storedOptions cfg DSI DUI coord s).medium
      = some (optionDefault cfg.options.medium cfg.data.medium DSI.medium)) ∧
    (s.low = none → (storedOptions cfg DSI DUI coord s).low
      = some (optionDefault cfg.options.low cfg.data.low DSI.low)) ∧
    (s.very_low = none → (storedOptions cfg DSI DUI coord s).very_low
      = some (optionDefault cfg.options.very_low cfg.data.very_low DSI.very_low)) ∧
    (s.unit_id = none → (storedOptions cfg DSI DUI coord s).unit_id
      = some (optionDefault cfg.options.unit_id cfg.data.unit_id DUI)) := by
  unfold storedOptions
  rw [async_step_init_fst]
  refine ⟨?_, ?_, ?_, ?_, ?_, ?_, ?_, ?_, ?_, ?_, ?_, ?_⟩ <;>
    intros <;>
    simp_all [applyOptionsSchema, toOptValues, clampTo]

/-- Witness for C8: submitting rate 5000 stores 3600, unit id 0 stores 1,
and the absent `medium` field falls back to the entry-data value 120. -/
theorem options_clamp_and_defaults_witness :
    (storedOptions ⟨⟨none, some 60, none, none, none⟩, ⟨some 7, none, some 120, none, none⟩⟩
      ⟨10, 30, 60, 300⟩ 1 (some 7) ⟨some 0, some 5000, none, none, none⟩).high
      = some 3600 ∧
    (storedOptions ⟨⟨none, some 60, none, none, none⟩, ⟨some 7, none, some 120, none, none⟩⟩
      ⟨10, 30, 60, 300⟩ 1 (some 7) ⟨some 0, some 5000, none, none, none⟩).unit_id
      = some 1 ∧
    (storedOptions ⟨⟨none, some 60, none, none, none⟩, ⟨some 7, none, some 120, none, none⟩⟩
      ⟨10, 30, 60, 300⟩ 1 (some 7) ⟨some 0, some 5000, none, none, none⟩).medium
      = some 120 :=
  ⟨(options_clamp_and_defaults
      ⟨⟨none, some 60, none, none, none⟩, ⟨some 7, none, some 120, none, none⟩⟩
      ⟨10, 30, 60, 300⟩ 1 (some 7) ⟨some 0, some 5000, none, none, none⟩).2.2.2.2.2.1 rfl,
   (options_clamp_and_defaults
      ⟨⟨none, some 60, none, none, none⟩, ⟨some 7, none, some 120, none, none⟩⟩
      ⟨10, 30, 60, 300⟩ 1 (some 7) ⟨some 0, some 5000, none, none, none⟩).2.2.2.2.2.2.1 rfl,
   (options_clamp_and_defaults
      ⟨⟨none, some 60, none, none, none⟩, ⟨some 7, none, some 120, none, none⟩⟩
      ⟨10, 30, 60, 300⟩ 1 (some 7) ⟨some 0, some 5000, none, none, none⟩).2.2.2.2.2.2.2.2.1 rfl⟩

/-- Claim C9: reconciling is idempotent — running the options step a second
time, on the entry whose options were stored by the first run and against
the coordinator state the first run left behind, with the same submission,
stores the same options, emits an identical scan-interval notification and
leaves the coordinator in the same state. -/
theorem reconcile_idempotent (cfg : OptionsEntry) (DSI : ScanDefaults) (DUI : Int)
    (coord : Option Int) (s : OptSubmission) :
    (async_step_init ⟨(async_step_init cfg DSI DUI coord s).1, cfg.data⟩ DSI DUI
        (async_step_init cfg DSI DUI coord s).2.2 s).1
      = (async_step_init cfg DSI DUI coord s).1 ∧
    (async_step_init ⟨(async_step_init cfg DSI DUI coord s).1, cfg.data⟩ DSI DUI
        (async_step_init cfg DSI DUI coord s).2.2 s).2.1.scanUpdate
      = (async_step_init cfg DSI DUI coord s).2.1.scanUpdate ∧
    (async_step_init ⟨(async_step_init cfg DSI DUI coord s).1, cfg.data⟩ DSI DUI
        (async_step_init cfg DSI DUI coord s).2.2 s).2.2
      = (async_step_init cfg DSI DUI coord s).2.2 := by
  refine ⟨?_, ?_, ?_⟩ <;>
    simp only [async_step_init_fst, async_step_init_scan, async_step_init_coord,
      applyOptionsSchema_stable, Option.map_map] <;>
    cases coord <;> rfl

end Marstek
